import Mathlib

/-!
Verification of `src/eightify_scraper.py`.

The Python source is shallowly embedded: Python strings are modelled as
`List Char` (`PyStr`), Python dictionaries with fixed keys as structures,
and the imperative loops as recursive Lean functions.  Each definition
cites the source lines it embeds.
-/

/-- Python strings are modelled as lists of characters. -/
abbrev PyStr := List Char

/-- Coercion from a Lean string literal to the `PyStr` model. -/
def pys (s : String) : PyStr := s.toList

/-- Whitespace test used by Python `str.strip()` (space, tab, newline,
carriage return, vertical tab, form feed). -/
def pyIsSpace (c : Char) : Bool :=
  c == ' ' || c == '\t' || c == '\n' || c == '\r' ||
  c == Char.ofNat 11 || c == Char.ofNat 12

/-- Python `s.strip()`: remove leading and trailing whitespace. -/
def pyStrip (s : PyStr) : PyStr :=
  List.rdropWhile pyIsSpace (List.dropWhile pyIsSpace s)

/-- Python `s.lower()` (ASCII case folding, which is all the source uses). -/
def pyLower (s : PyStr) : PyStr := s.map Char.toLower

/-- Python `s.split(sep)` for a one-character separator. -/
def pySplitChar (sep : Char) : PyStr → List PyStr
  | [] => [[]]
  | c :: rest =>
    if c = sep then [] :: pySplitChar sep rest
    else
      match pySplitChar sep rest with
      | [] => [[c]]
      | l :: ls => (c :: l) :: ls

/-- Python `s[a:b]` for `0 ≤ a ≤ b` (the only shape the source uses). -/
def pySlice (s : PyStr) (a b : Nat) : PyStr := (s.take b).drop a

/-- Python `hay.find(sub)`: index of the first occurrence of `sub` in `hay`,
`none` standing for Python result `-1`. -/
def pyFind (hay sub : PyStr) : Option Nat :=
  (List.range (hay.length + 1)).find? (fun i => sub.isPrefixOf (hay.drop i))

/-- Python `hay.find(sub, start)`: first occurrence at index `≥ start`. -/
def pyFindFrom (hay sub : PyStr) (start : Nat) : Option Nat :=
  (pyFind (hay.drop start) sub).map (· + start)

/-- Python `sub in hay` substring test. -/
def pyContains (hay sub : PyStr) : Bool := (pyFind hay sub).isSome

/-- The first element surviving `dropWhile p` falsifies `p`. -/
theorem dropWhile_head_false (p : Char → Bool) :
    ∀ (l : List Char) (a : Char) (t : List Char),
      List.dropWhile p l = a :: t → p a = false := by
  intro l
  induction l with
  | nil => intro a t h; simp [List.dropWhile] at h
  | cons b l ih =>
    intro a t h
    rw [List.dropWhile_cons] at h
    by_cases hb : p b
    · rw [if_pos hb] at h
      exact ih a t h
    · rw [if_neg hb] at h
      cases h
      simpa using hb

/-- A list whose head falsifies `p` is untouched by `dropWhile p`. -/
theorem dropWhile_self_of_head_false (p : Char → Bool) (l : List Char)
    (h : ∀ (a : Char) (t : List Char), l = a :: t → p a = false) :
    List.dropWhile p l = l := by
  cases l with
  | nil => rfl
  | cons a t =>
    rw [List.dropWhile_cons, h a t rfl]
    simp

/-- Stripping is idempotent: `pyStrip (pyStrip s) = pyStrip s`. -/
theorem pyStrip_idem (s : PyStr) : pyStrip (pyStrip s) = pyStrip s := by
  have key : List.dropWhile pyIsSpace (pyStrip s) = pyStrip s := by
    apply dropWhile_self_of_head_false
    intro a r h1
    obtain ⟨t, ht⟩ := List.rdropWhile_prefix pyIsSpace (List.dropWhile pyIsSpace s)
    have ht2 : pyStrip s ++ t = List.dropWhile pyIsSpace s := ht
    have h2 : List.dropWhile pyIsSpace s = a :: (r ++ t) := by
      rw [← ht2, h1]
      rfl
    exact dropWhile_head_false pyIsSpace s a (r ++ t) h2
  show List.rdropWhile pyIsSpace (List.dropWhile pyIsSpace (pyStrip s)) = pyStrip s
  rw [key]
  exact List.rdropWhile_idempotent pyIsSpace (List.dropWhile pyIsSpace s)

/-- Section kinds, in the fixed tab order of the source
(`tab_types` at lines 434 and 961). -/
inductive SectionKind
  | key_insights
  | timestamped_summary
  | top_comments
  | transcript
deriving DecidableEq, Repr

/-- The fixed iteration order `["key_insights", "timestamped_summary",
"top_comments", "transcript"]`. -/
def sectionOrder : List SectionKind :=
  [SectionKind.key_insights, SectionKind.timestamped_summary,
   SectionKind.top_comments, SectionKind.transcript]

/-- The `eightify_data` dictionary restricted to its four section keys
(initialised all-empty at lines 335-340 and 856-862). -/
structure Sections where
  key_insights : PyStr
  timestamped_summary : PyStr
  top_comments : PyStr
  transcript : PyStr
deriving DecidableEq, Repr

/-- The all-empty initial section map. -/
def Sections.empty : Sections := ⟨[], [], [], []⟩

/-- Dictionary lookup `eightify_data[k]`. -/
def Sections.get (d : Sections) : SectionKind → PyStr
  | SectionKind.key_insights => d.key_insights
  | SectionKind.timestamped_summary => d.timestamped_summary
  | SectionKind.top_comments => d.top_comments
  | SectionKind.transcript => d.transcript

/-- Dictionary update `eightify_data[k] = v`. -/
def Sections.set (d : Sections) (k : SectionKind) (v : PyStr) : Sections :=
  match k with
  | SectionKind.key_insights => { d with key_insights := v }
  | SectionKind.timestamped_summary => { d with timestamped_summary := v }
  | SectionKind.top_comments => { d with top_comments := v }
  | SectionKind.transcript => { d with transcript := v }

set_option maxRecDepth 4000 in
theorem Sections.get_set (d : Sections) (k j : SectionKind) (v : PyStr) :
    (d.set k v).get j = if j = k then v else d.get j := by
  cases d
  cases k <;> cases j <;> rfl

/-- Python `any(eightify_data.values())` over the four section strings
(line 738; the explicit four-key variant at lines 1147-1148 and 1153-1154
computes the same disjunction). -/
def anySection (d : Sections) : Bool :=
  !d.key_insights.isEmpty || !d.timestamped_summary.isEmpty ||
  !d.top_comments.isEmpty || !d.transcript.isEmpty

/-- One `{"timestamp": ..., "text": ...}` entry of the structured
transcript (lines 721-724 and 729-732). -/
structure TranscriptEntry where
  timestamp : PyStr
  text : PyStr
deriving DecidableEq, Repr

/-- Timestamp test of lines 712-716: the (stripped) current line contains
a colon, has length at most 8, and every character is a digit or a colon. -/
def is_timestamp (cur : PyStr) : Bool :=
  cur.contains ':' && cur.length ≤ 8 && cur.all (fun c => c.isDigit || c == ':')

/-- Whether a non-timestamp line is emitted (line 728): non-empty and not
case-insensitively equal to the literal word "transcript". -/
def emitPlain (cur : PyStr) : Bool :=
  !cur.isEmpty && !(pyLower cur == pys "transcript")

/-- The transcript structuring loop of lines 708-733, walking the list of
lines with a two-line lookahead. -/
def structure_transcript_lines : List PyStr → List TranscriptEntry
  | [] => []
  | [l] =>
    -- last line: `i + 1 < len(transcript_lines)` fails, so the else
    -- branch of line 726 applies even to a timestamp-shaped line
    let cur := pyStrip l
    if emitPlain cur then [⟨[], cur⟩] else []
  | l :: next :: rest =>
    let cur := pyStrip l
    if is_timestamp cur then
      ⟨cur, pyStrip next⟩ :: structure_transcript_lines rest
    else
      (if emitPlain cur then [⟨[], cur⟩] else []) ++
        structure_transcript_lines (next :: rest)

/-- Transcript post-processing of lines 700-733: split the raw transcript
text on newlines and walk the lines. -/
def structure_transcript (raw : PyStr) : List TranscriptEntry :=
  structure_transcript_lines (pySplitChar '\n' raw)

/-- Result status: the Python string literals "Success" and "Error". -/
inductive Status
  | success
  | error
deriving DecidableEq, Repr

/-- The per-URL extraction result dictionary.  `scrape_eightify_data`
builds it at lines 736-756 (error dictionaries at 298-304, 307-311 and
764-769 carry no section keys, modelled as empty sections), and
`process_next_url` builds it at lines 856-862 and 1147-1155. -/
structure ExtractionResult where
  video_url : PyStr
  status : Status
  sections : Sections
  structured_transcript : List TranscriptEntry
  message : Option PyStr
  next_steps : Option PyStr
deriving DecidableEq, Repr

/-- Lines 700-769 of `scrape_eightify_data`: final result preparation.
The local variable `result` is assigned only inside the
`if eightify_data.get("transcript"):` block (the assignment at line 736 is
indented under the `if` of line 701), while line 746 reads `result`
unconditionally.  With an empty transcript section this raises
`UnboundLocalError`, which the handler of lines 758-769 converts into the
"Error during extraction" dictionary without section keys. -/
def scrape_finalize (youtube_url : PyStr) (eightify_data : Sections) : ExtractionResult :=
  if !eightify_data.transcript.isEmpty then
    -- lines 702-744: structure the transcript and build `result`
    let st := structure_transcript eightify_data.transcript
    let status := if anySection eightify_data then Status.success else Status.error
    if status = Status.success then
      -- lines 746-750
      ⟨youtube_url, status, eightify_data, st, none, none⟩
    else
      -- lines 751-754 (unreachable here: a non-empty transcript makes
      -- `anySection` true; kept to mirror the source)
      ⟨youtube_url, status, eightify_data, st,
        some (pys "Could not locate Eightify data"),
        some (pys "1. Open the video in your normal browser and verify Eightify is working")⟩
  else
    -- line 746 raises UnboundLocalError on `result`; lines 758-769 catch
    -- it and return the extraction-error dictionary
    ⟨youtube_url, Status.error, Sections.empty, [],
      some (pys "Error during extraction: local variable result referenced before assignment"),
      some (pys "Check the saved HTML for debugging")⟩

/-- Lines 1140-1155 of `process_next_url`: both branches of the
`if eightify_data.get("transcript"):` set
`status = "Success" if any(...) else "Error"` over the four section keys
and return the dictionary. -/
def process_finalize (video_url : PyStr) (eightify_data : Sections) : ExtractionResult :=
  ⟨video_url, if anySection eightify_data then Status.success else Status.error,
    eightify_data, [], none, none⟩

/-- The `content_sections` alias table of lines 659-664 / their order is
the dictionary insertion order. -/
def content_sections : SectionKind → List PyStr
  | SectionKind.key_insights =>
      [pys "Key Insights", pys "Main Points", pys "Key Points", pys "Highlights"]
  | SectionKind.timestamped_summary =>
      [pys "Timestamped Summary", pys "Summary", pys "Video Summary", pys "Timeline"]
  | SectionKind.top_comments =>
      [pys "Top Comments", pys "Comments", pys "User Comments", pys "Best Comments"]
  | SectionKind.transcript =>
      [pys "Transcript", pys "Full Transcript", pys "Video Transcript", pys "CC"]

/-- Python `sum(content_sections.values(), [])` (line 675): all sixteen
header aliases in table order. -/
def all_section_headers : List PyStr := sectionOrder.flatMap content_sections

/-- Lines 674-678: the slice for a matched header ends at the earliest
later occurrence of any known header alias, or at end of text. -/
def segment_end_idx (all_content : PyStr) (start_idx hlen : Nat) : Nat :=
  all_section_headers.foldl
    (fun end_idx next_header =>
      match pyFindFrom all_content next_header (start_idx + hlen) with
      | some next_start => if next_start < end_idx then next_start else end_idx
      | none => end_idx)
    all_content.length

/-- Lines 669-681: the stripped slice for one header alias, `none` when
the alias does not occur in the page text. -/
def direct_slice (all_content header : PyStr) : Option PyStr :=
  match pyFind all_content header with
  | none => none
  | some start_idx =>
      some (pyStrip (pySlice all_content start_idx
        (segment_end_idx all_content start_idx header.length)))

/-- Lines 669-685: a header alias yields content only when its stripped
slice is longer than 50 characters (`len(section_content) > 50`). -/
def try_header (all_content header : PyStr) : Option PyStr :=
  match direct_slice all_content header with
  | none => none
  | some section_content =>
      if section_content.length > 50 then some section_content else none

/-- Lines 667-685: the first alias of a section whose slice passes the
length gate wins (the `break` at line 685). -/
def direct_extract_section (all_content : PyStr) (k : SectionKind) : Option PyStr :=
  (content_sections k).findSome? (try_header all_content)

/-- Line 647: the section kinds whose text is still empty. -/
def missingOf (d : Sections) : List SectionKind :=
  sectionOrder.filter (fun k => (d.get k).isEmpty)

/-- Lines 655-687: the direct-extraction (heuristic segmenter) pass over
the missing sections. -/
def direct_extraction (all_content : PyStr) (missing : List SectionKind)
    (d : Sections) : Sections :=
  missing.foldl
    (fun acc k =>
      match direct_extract_section all_content k with
      | some txt => acc.set k txt
      | none => acc)
    d

/-- The merge of lines 642-644 in `scrape_eightify_data`: a tab value is
copied only when non-empty and the section is still empty
(`if value and (key not in eightify_data or not eightify_data[key])`;
the four keys are always present). -/
def merge_scrape (eightify_data : Sections)
    (tab_data : List (SectionKind × PyStr)) : Sections :=
  tab_data.foldl
    (fun acc kv =>
      if !kv.2.isEmpty && (acc.get kv.1).isEmpty then acc.set kv.1 kv.2 else acc)
    eightify_data

/-- The merge of lines 1119-1121 in `process_next_url`: a non-empty tab
value is copied unconditionally (`if value: eightify_data[key] = value`). -/
def merge_process (eightify_data : Sections)
    (tab_data : List (SectionKind × PyStr)) : Sections :=
  tab_data.foldl
    (fun acc kv => if !kv.2.isEmpty then acc.set kv.1 kv.2 else acc)
    eightify_data

/-- Line 316: `driver.get(youtube_url)` — the navigation target of
`scrape_eightify_data` is the input URL itself; no rewriting of the URL
happens anywhere between the function entry at line 93 and this call. -/
def nav_url_scrape (youtube_url : PyStr) : PyStr := youtube_url

/-- Line 837: `driver.get(video_url)` — the navigation target of
`process_next_url` is the input URL itself. -/
def nav_url_process (video_url : PyStr) : PyStr := video_url

/-- Value of the query parameter `t` (the playback time offset) of a URL:
the text after `t=` in the first query item of that shape after `?`.
This formalises the time-offset parameter the specification speaks
about; it is not a function of the source. -/
def queryParamT (url : PyStr) : Option PyStr :=
  match pyFind url (pys "?") with
  | none => none
  | some i =>
      (pySplitChar '&' (url.drop (i + 1))).findSome?
        (fun kv => if (pys "t=").isPrefixOf kv then some (kv.drop 2) else none)

instance {ε α : Type} [DecidableEq ε] [DecidableEq α] : DecidableEq (Except ε α) :=
  fun a b =>
    match a, b with
    | Except.ok x, Except.ok y =>
      if h : x = y then Decidable.isTrue (by rw [h])
      else Decidable.isFalse (fun hc => by cases hc; exact h rfl)
    | Except.error x, Except.error y =>
      if h : x = y then Decidable.isTrue (by rw [h])
      else Decidable.isFalse (fun hc => by cases hc; exact h rfl)
    | Except.ok _, Except.error _ => Decidable.isFalse (fun hc => by cases hc)
    | Except.error _, Except.ok _ => Decidable.isFalse (fun hc => by cases hc)

/-- Browser interaction context: top-level document or inside the
extension iframe. -/
inductive Ctx
  | top
  | frame
deriving DecidableEq, Repr

/-- Context-switch calls on the driver: `driver.switch_to.frame(iframe)`
and `driver.switch_to.default_content()`. -/
inductive CtxEv
  | enterFrame
  | exitFrame
deriving DecidableEq, Repr

/-- Effect of one context switch. -/
def applyCtx : Ctx → CtxEv → Ctx
  | _, CtxEv.enterFrame => Ctx.frame
  | _, CtxEv.exitFrame => Ctx.top

/-- Context reached after a sequence of switches, starting at top level. -/
def finalCtx (evs : List CtxEv) : Ctx := evs.foldl applyCtx Ctx.top

/-- Exit paths out of the iframe block of `scrape_eightify_data`
(lines 363-756). -/
inductive ScrapeExit
  | success
  | iframeError
deriving DecidableEq, Repr

/-- Context-switch events of per-tab error recovery (lines 497-507 and
584-617 in `scrape_eightify_data`, lines 1028-1038 in `process_next_url`):
switch to default content, then back into the iframe when re-finding it
succeeds. -/
def recovery_ctx_events (tabRecoveries : List Bool) : List CtxEv :=
  tabRecoveries.flatMap
    (fun ok => CtxEv.exitFrame :: (if ok then [CtxEv.enterFrame] else []))

/-- Context-switch events of the iframe block of `scrape_eightify_data`:
`switch_to.frame` at line 363; per-tab recoveries; on an iframe-processing
exception the handler of lines 690-692 switches back to default content.
The success path (lines 689 and 695-756: set `iframe_found`, leave the
selector loop, build and return `result`) performs no further context
switch. -/
def scrape_ctx_events (tabRecoveries : List Bool) : ScrapeExit → List CtxEv
  | ScrapeExit.success => CtxEv.enterFrame :: recovery_ctx_events tabRecoveries
  | ScrapeExit.iframeError =>
      (CtxEv.enterFrame :: recovery_ctx_events tabRecoveries) ++ [CtxEv.exitFrame]

/-- Exit paths out of the iframe block of `process_next_url`
(lines 886-1133). -/
inductive ProcessExit
  | success
  | contentError
  | iframeError
deriving DecidableEq, Repr

/-- Context-switch events of the iframe block of `process_next_url`:
`switch_to.frame` at line 886; per-tab recoveries; then
`switch_to.default_content` on the successful path (line 1124), in the
content-error handler (line 1127), and in the iframe-error handler
(line 1133). -/
def process_ctx_events (tabRecoveries : List Bool) : ProcessExit → List CtxEv
  | ProcessExit.success =>
      (CtxEv.enterFrame :: recovery_ctx_events tabRecoveries) ++ [CtxEv.exitFrame]
  | ProcessExit.contentError =>
      (CtxEv.enterFrame :: recovery_ctx_events tabRecoveries) ++ [CtxEv.exitFrame]
  | ProcessExit.iframeError =>
      (CtxEv.enterFrame :: recovery_ctx_events tabRecoveries) ++ [CtxEv.exitFrame]

/-- Python exceptions reaching the `__main__` loop. -/
inductive PyErr
  | typeError
  | nameError
deriving DecidableEq, Repr

/-- Externally visible operations of the `__main__` batch loop, used to
state which URLs incur browser or extraction work. -/
inductive BatchAct
  | closeChrome
  | callScrapeEightify (url : PyStr)
  | createDriver (h : Nat)
  | quitDriver (h : Nat)
  | checkResponsive (h : Nat)
  | callProcessNextUrl (h : Nat) (url : PyStr)
  | tabReset (h : Nat)
  | saveResults
deriving DecidableEq, Repr

/-- The persisted `all_results` JSON object, keyed by video URL
(lines 1464-1473). -/
abbrev Store := List (PyStr × Sections)

/-- Python `video_url in all_results` (line 1488). -/
def Store.containsKey (s : Store) (u : PyStr) : Bool := s.any (fun p => p.1 == u)

/-- Python `all_results[video_url] = url_data` (line 1576). -/
def Store.insertKey (s : Store) (u : PyStr) (d : Sections) : Store :=
  if s.containsKey u then s.map (fun p => if p.1 == u then (u, d) else p)
  else s ++ [(u, d)]

/-- Mutable state of the `__main__` loop: the monkey-patch-captured
`global_driver` (lines 1394, 1476-1483), a counter for fresh driver
handles, the binding state of the name `eightify_data`, and `all_results`. -/
structure MainState where
  global_driver : Option Nat
  nextHandle : Nat
  eightify_data : Option ExtractionResult
  all_results : Store
deriving DecidableEq, Repr

/-- Environment describing the outcomes of browser interactions: whether
the existing driver answers the responsiveness probe of lines 1529-1534,
what section map an extraction pass would produce, and whether the
inter-URL tab hygiene of lines 1595-1608 succeeds. -/
structure BatchEnv where
  responsive : Nat → Nat → Bool
  scrapeExtracted : Nat → Nat → Option Sections
  processExtracted : Nat → Nat → Option Sections
  hygieneOk : Nat → Bool

/-- Parameter names of `def scrape_eightify_data(youtube_url,
close_existing=False)` (line 93). -/
def scrape_eightify_data_params : List String := ["youtube_url", "close_existing"]

/-- Keyword arguments passed at both call sites in the main loop
(lines 1525 and 1550): `scrape_eightify_data(video_url,
keep_browser_open=True, close_existing=True)`. -/
def main_scrape_call_kwargs : List String := ["keep_browser_open", "close_existing"]

/-- Python binds keyword arguments before entering a function body; a
call is accepted only when every keyword names a parameter, otherwise it
raises TypeError at the call site. -/
def kwargsAccepted (params kwargs : List String) : Bool :=
  kwargs.all (params.contains ·)

/-- The body of `scrape_eightify_data` as seen from the main loop: it
creates a browser (the monkey patch of lines 1481-1483 captures the new
handle into `global_driver`), navigates, extracts a section map (supplied
by the environment) and finalises it (lines 700-769). -/
def scrape_eightify_data_run (env : BatchEnv) (urlIdx retry : Nat) (url : PyStr)
    (st : MainState) : MainState × List BatchAct × ExtractionResult :=
  let h := st.nextHandle
  let st1 := { st with global_driver := some h, nextHandle := h + 1 }
  match env.scrapeExtracted urlIdx retry with
  | some data => (st1, [BatchAct.createDriver h], scrape_finalize url data)
  | none =>
      (st1, [BatchAct.createDriver h],
        ⟨url, Status.error, Sections.empty, [],
          some (pys "Error during extraction"),
          some (pys "Check the saved HTML for debugging")⟩)

/-- The call `scrape_eightify_data(video_url, keep_browser_open=True,
close_existing=True)` of lines 1525 and 1550.  Argument binding is checked
against the parameter list of line 93 before the body runs. -/
def call_scrape_main (env : BatchEnv) (urlIdx retry : Nat) (url : PyStr)
    (st : MainState) : MainState × List BatchAct × Except PyErr ExtractionResult :=
  if kwargsAccepted scrape_eightify_data_params main_scrape_call_kwargs then
    let r := scrape_eightify_data_run env urlIdx retry url st
    (r.1, BatchAct.callScrapeEightify url :: r.2.1, Except.ok r.2.2)
  else
    (st, [BatchAct.callScrapeEightify url], Except.error PyErr.typeError)

/-- `process_next_url` as seen from the main loop: it always returns a
dictionary (its handlers at lines 1156-1169 convert every exception into
an error dictionary); the extracted section map is the environment's. -/
def process_next_url_run (env : BatchEnv) (urlIdx retry : Nat) (url : PyStr) :
    ExtractionResult :=
  match env.processExtracted urlIdx retry with
  | some data => process_finalize url data
  | none =>
      ⟨url, Status.error, Sections.empty, [],
        some (pys "Error navigating"), none⟩

/-- Success test of lines 1553-1554: status is "Success" or some section
key is non-empty. -/
def successCheck (d : ExtractionResult) : Bool :=
  d.status == Status.success || anySection d.sections

/-- One iteration of the retry body (the `try` of lines 1504-1554):
a retry first quits and discards any existing browser (1506-1517); with no
browser, close stray Chrome processes and call `scrape_eightify_data`
(1520-1525); with a browser, probe responsiveness and either call
`process_next_url` (1527-1538) or tear the browser down and call
`scrape_eightify_data` (1539-1550). -/
def attempt_once (env : BatchEnv) (urlIdx retry : Nat) (url : PyStr)
    (st : MainState) : MainState × List BatchAct × Except PyErr ExtractionResult :=
  let p : MainState × List BatchAct :=
    if 0 < retry then
      match st.global_driver with
      | some h => ({ st with global_driver := none }, [BatchAct.quitDriver h])
      | none => (st, [])
    else (st, [])
  match p.1.global_driver with
  | none =>
    let r := call_scrape_main env urlIdx retry url p.1
    (r.1, p.2 ++ [BatchAct.closeChrome] ++ r.2.1, r.2.2)
  | some h =>
    if env.responsive urlIdx retry then
      (p.1, p.2 ++ [BatchAct.checkResponsive h, BatchAct.callProcessNextUrl h url],
        Except.ok (process_next_url_run env urlIdx retry url))
    else
      let r := call_scrape_main env urlIdx retry url { p.1 with global_driver := none }
      (r.1, p.2 ++ [BatchAct.checkResponsive h, BatchAct.quitDriver h, BatchAct.closeChrome]
        ++ r.2.1, r.2.2)

/-- The retry loop of lines 1503-1565: `while retry_count <= max_retries
and not success` with `max_retries = 2`; a body exception is caught at
line 1561 and counted as a retry; a returned dictionary is bound to
`eightify_data` and tested by `successCheck`. -/
def retry_loop (env : BatchEnv) (urlIdx : Nat) (url : PyStr) :
    Nat → Nat → MainState → MainState × List BatchAct × Bool
  | 0, _, st => (st, [], false)
  | Nat.succ fuel, retry, st =>
    if retry > 2 then (st, [], false)
    else
      match attempt_once env urlIdx retry url st with
      | (st1, acts, Except.ok d) =>
        let st2 := { st1 with eightify_data := some d }
        if successCheck d then (st2, acts, true)
        else
          let r := retry_loop env urlIdx url fuel (retry + 1) st2
          (r.1, acts ++ r.2.1, r.2.2)
      | (st1, acts, Except.error _) =>
        let r := retry_loop env urlIdx url fuel (retry + 1) st1
        (r.1, acts ++ r.2.1, r.2.2)

/-- Lines 1567-1581: build `url_data` from the four section keys of
`eightify_data` (a NameError if that name was never bound, as after a
first URL whose every attempt raised), store it under the URL and write
the JSON file. -/
def record_url (st : MainState) (url : PyStr) : Except PyErr (MainState × List BatchAct) :=
  match st.eightify_data with
  | none => Except.error PyErr.nameError
  | some d =>
      Except.ok ({ st with all_results := st.all_results.insertKey url d.sections },
        [BatchAct.saveResults])

/-- Lines 1590-1618: inter-URL browser-tab hygiene, skipped after a
failure or on the last URL; a hygiene failure quits the browser so the
next URL gets a fresh instance. -/
def tab_hygiene (env : BatchEnv) (urlIdx : Nat) (isLast success : Bool)
    (st : MainState) : MainState × List BatchAct :=
  if !success || isLast then (st, [])
  else
    match st.global_driver with
    | none => (st, [])
    | some h =>
      if env.hygieneOk urlIdx then (st, [BatchAct.tabReset h])
      else ({ st with global_driver := none }, [BatchAct.quitDriver h])

/-- The URL loop of lines 1486-1618: skip URLs already in `all_results`
(lines 1488-1490), otherwise run the retry loop, record and persist the
result, and do tab hygiene.  An exception escaping an iteration (such as
the NameError of line 1568) aborts the whole loop; it is caught only by
the top-level handler of line 1640, which ends the run. -/
def run_batch (env : BatchEnv) :
    Nat → List PyStr → MainState → List BatchAct × Except PyErr MainState
  | _, [], st => ([], Except.ok st)
  | urlIdx, url :: rest, st =>
    if st.all_results.containsKey url then run_batch env (urlIdx + 1) rest st
    else
      let r1 := retry_loop env urlIdx url 4 0 st
      match record_url r1.1 url with
      | Except.error e => (r1.2.1, Except.error e)
      | Except.ok (st2, acts2) =>
        let r3 := tab_hygiene env urlIdx rest.isEmpty r1.2.2 st2
        let r4 := run_batch env (urlIdx + 1) rest r3.1
        (r1.2.1 ++ acts2 ++ r3.2 ++ r4.1, r4.2)

/-- Helper: recognise the browser-creation action in a trace. -/
def isCreateDriver : BatchAct → Bool
  | BatchAct.createDriver _ => true
  | _ => false

/-- Section map with a long key-insights text and an empty transcript,
the case claim C1 singles out. -/
def sectionsC1 : Sections := ⟨List.replicate 60 'a', [], [], []⟩

/-- C1.  The claim fails on `scrape_eightify_data`: with a non-empty
`key_insights` but an empty `transcript`, the `result` dictionary of line
736 is never assigned (the assignment sits inside the
`if eightify_data.get("transcript"):` of line 701), line 746 raises
`UnboundLocalError`, and the handler of lines 758-769 returns status
"Error" even though a section is non-empty.  `process_next_url` computes
the claimed status. -/
theorem scrape_status_bug_on_missing_transcript :
    (∀ (u : PyStr) (d : Sections),
      (process_finalize u d).status = Status.success ↔ anySection d = true) ∧
    anySection sectionsC1 = true ∧
    sectionsC1.transcript = [] ∧
    (scrape_finalize (pys "https://y/v1") sectionsC1).status = Status.error := by
  refine ⟨fun u d => ?_, by decide, by decide, by decide⟩
  cases h : anySection d <;> simp [process_finalize, h]

/-- C2.  With an empty result store, the first URL exhausts its three
attempts (each raising TypeError at the
`scrape_eightify_data(..., keep_browser_open=True, ...)` call of lines
1525/1550, since line 93 declares no such parameter), so `eightify_data`
is never bound.  Line 1568 then raises NameError, which aborts the whole
run: no entry is recorded, nothing is persisted, and the second URL is
never processed — for every environment. -/
theorem batch_abort_on_first_url_failure_bug :
    ∀ env : BatchEnv,
      run_batch env 0 [pys "u1", pys "u2"] ⟨none, 0, none, []⟩ =
        ([BatchAct.closeChrome, BatchAct.callScrapeEightify (pys "u1"),
          BatchAct.closeChrome, BatchAct.callScrapeEightify (pys "u1"),
          BatchAct.closeChrome, BatchAct.callScrapeEightify (pys "u1")],
         Except.error PyErr.nameError) :=
  fun _ => rfl

/-- Environment for the C3 scenario: the inherited browser answers the
responsiveness probe and `process_next_url` extracts an empty section map,
so the first attempt returns an all-empty Error result. -/
def envC3 : BatchEnv :=
  ⟨fun _ _ => true, fun _ _ => some Sections.empty,
   fun _ _ => some Sections.empty, fun _ => true⟩

/-- Batch state for the C3 scenario: a browser handle (7) inherited from
earlier processing. -/
def stC3 : MainState := ⟨some 7, 8, none, []⟩

/-- C3.  After two failed attempts the code does quit and discard the
failed handle (the `quitDriver 7` in the trace) and never reuses it, but
the retry call `scrape_eightify_data(..., keep_browser_open=True, ...)`
raises TypeError before any browser is created: the trace contains no
browser-creation action at all, so the third attempt runs with no freshly
created handle, contradicting the claim. -/
theorem retry_creates_no_fresh_browser_bug :
    run_batch envC3 0 [pys "u1"] stC3 =
      ([BatchAct.checkResponsive 7, BatchAct.callProcessNextUrl 7 (pys "u1"),
        BatchAct.quitDriver 7, BatchAct.closeChrome,
        BatchAct.callScrapeEightify (pys "u1"),
        BatchAct.closeChrome, BatchAct.callScrapeEightify (pys "u1"),
        BatchAct.saveResults],
       Except.ok ⟨none, 8, some (process_finalize (pys "u1") Sections.empty),
         [(pys "u1", Sections.empty)]⟩) ∧
    (run_batch envC3 0 [pys "u1"] stC3).1.all (fun a => !isCreateDriver a) = true := by
  constructor
  · rfl
  · decide

/-- C4.  URLs already in the result store are skipped by the check of
lines 1488-1490 before any browser or extraction work: a stored URL's
iteration is the identity, and a run over a list of stored URLs performs
no actions and leaves the state untouched. -/
theorem batch_skips_stored_urls :
    (∀ (env : BatchEnv) (i : Nat) (urls : List PyStr) (st : MainState),
        (∀ u ∈ urls, st.all_results.containsKey u = true) →
        run_batch env i urls st = ([], Except.ok st)) ∧
    (∀ (env : BatchEnv) (i : Nat) (u : PyStr) (rest : List PyStr) (st : MainState),
        st.all_results.containsKey u = true →
        run_batch env i (u :: rest) st = run_batch env (i + 1) rest st) := by
  constructor
  · intro env i urls
    induction urls generalizing i with
    | nil => intro st _; rfl
    | cons u rest ih =>
      intro st h
      have hu : st.all_results.containsKey u = true := h u (by simp)
      have hstep : run_batch env i (u :: rest) st = run_batch env (i + 1) rest st := by
        simp [run_batch, hu]
      rw [hstep]
      exact ih (i + 1) st (fun v hv => h v (by simp [hv]))
  · intro env i u rest st h
    simp [run_batch, h]

/-- Witness for C4 at a concrete store containing the URL. -/
theorem batch_skips_stored_urls_witness :
    run_batch ⟨fun _ _ => true, fun _ _ => none, fun _ _ => none, fun _ => true⟩ 0
      [pys "u1"] ⟨none, 0, none, [(pys "u1", Sections.empty)]⟩ =
      ([], Except.ok ⟨none, 0, none, [(pys "u1", Sections.empty)]⟩) :=
  batch_skips_stored_urls.1 ⟨fun _ _ => true, fun _ _ => none, fun _ _ => none, fun _ => true⟩
    0 [pys "u1"] ⟨none, 0, none, [(pys "u1", Sections.empty)]⟩ (by decide)

/-- C5.  The transcript structurer: (1) a line is classified as a
timestamp exactly when it contains a colon, has length at most 8, and
every character is a digit or a colon; (2) a timestamp line followed by
another line yields one entry consuming both lines; (3) a non-timestamp
line is emitted with empty timestamp exactly when non-empty and not
case-insensitively "transcript"; (4)-(5) the two concrete inputs of the
claim produce exactly the claimed entry lists. -/
theorem transcript_structurer_spec :
    (∀ s : PyStr, is_timestamp s = true ↔
      (':' ∈ s ∧ s.length ≤ 8 ∧ ∀ c ∈ s, c.isDigit = true ∨ c = ':')) ∧
    (∀ (l next : PyStr) (rest : List PyStr), is_timestamp (pyStrip l) = true →
      structure_transcript_lines (l :: next :: rest) =
        ⟨pyStrip l, pyStrip next⟩ :: structure_transcript_lines rest) ∧
    (∀ (l next : PyStr) (rest : List PyStr), is_timestamp (pyStrip l) = false →
      structure_transcript_lines (l :: next :: rest) =
        (if pyStrip l ≠ [] ∧ pyLower (pyStrip l) ≠ pys "transcript"
          then [⟨[], pyStrip l⟩] else []) ++
          structure_transcript_lines (next :: rest)) ∧
    structure_transcript (pys "00:01\nHello world\n00:02\nSecond line") =
      [⟨pys "00:01", pys "Hello world"⟩, ⟨pys "00:02", pys "Second line"⟩] ∧
    structure_transcript (pys "Transcript\n00:05\nHi") =
      [⟨pys "00:05", pys "Hi"⟩] := by
  refine ⟨fun s => ?_, fun l next rest h => ?_, fun l next rest h => ?_,
    by decide, by decide⟩
  · simp [is_timestamp, List.all_eq_true, and_assoc]
  · simp [structure_transcript_lines, h]
  · have he : (if emitPlain (pyStrip l) then [(⟨[], pyStrip l⟩ : TranscriptEntry)] else [])
        = (if pyStrip l ≠ [] ∧ pyLower (pyStrip l) ≠ pys "transcript"
            then [⟨[], pyStrip l⟩] else []) := by
      by_cases h1 : pyStrip l = [] <;>
        by_cases h2 : pyLower (pyStrip l) = pys "transcript" <;>
          simp [emitPlain, h1, h2]
    simp [structure_transcript_lines, h, he]

/-- Witness for C5 at a concrete timestamp line and follower. -/
theorem transcript_structurer_spec_witness :
    is_timestamp (pyStrip (pys "00:05")) = true ∧
    structure_transcript_lines [pys "00:05", pys "Hi"] =
      ⟨pyStrip (pys "00:05"), pyStrip (pys "Hi")⟩ :: structure_transcript_lines [] :=
  ⟨by decide, transcript_structurer_spec.2.1 (pys "00:05") (pys "Hi") [] (by decide)⟩

/-- The concrete page text of claim C6. -/
def segmenter_example_text : PyStr := pys "Key Insights\nA B C\nTranscript\nX Y Z"

/-- C6, counterexample.  On the claimed input the direct-extraction pass
fills neither section: both candidate slices fail the
`len(section_content) > 50` gate of line 682, so the claimed fills do not
happen. -/
theorem segmenter_fills_counterexample :
    ¬ ((direct_extraction segmenter_example_text
          [SectionKind.key_insights, SectionKind.transcript]
          Sections.empty).get SectionKind.key_insights = pys "Key Insights\nA B C" ∧
       (direct_extraction segmenter_example_text
          [SectionKind.key_insights, SectionKind.transcript]
          Sections.empty).get SectionKind.transcript = pys "Transcript\nX Y Z") := by
  decide

/-- C6, amended.  The slices are computed exactly as the claim says —
`key_insights` would take "Key Insights\nA B C" (the slice stops at index
19, where the next known header "Transcript" begins) and `transcript`
would take "Transcript\nX Y Z" (running to end of text) — but their
stripped lengths 18 and 16 do not exceed `MIN_CONTENT_LENGTH` (50), so
line 682 rejects both and the direct-extraction pass leaves both sections
empty. -/
theorem segmenter_threshold_amended :
    pyFind segmenter_example_text (pys "Key Insights") = some 0 ∧
    pyFind segmenter_example_text (pys "Transcript") = some 19 ∧
    segment_end_idx segmenter_example_text 0 (pys "Key Insights").length = 19 ∧
    direct_slice segmenter_example_text (pys "Key Insights") =
      some (pys "Key Insights\nA B C") ∧
    direct_slice segmenter_example_text (pys "Transcript") =
      some (pys "Transcript\nX Y Z") ∧
    (pys "Key Insights\nA B C").length = 18 ∧
    (pys "Transcript\nX Y Z").length = 16 ∧
    try_header segmenter_example_text (pys "Key Insights") = none ∧
    try_header segmenter_example_text (pys "Transcript") = none ∧
    direct_extraction segmenter_example_text
      [SectionKind.key_insights, SectionKind.transcript] Sections.empty =
      Sections.empty := by
  decide

/-- Section map used by the C7 theorems: key insights already hold "A". -/
def sectionsC7 : Sections := Sections.empty.set SectionKind.key_insights (pys "A")

/-- C7, counterexample.  The merge of `process_next_url` (lines 1119-1121,
`if value: eightify_data[key] = value`) overwrites a section that already
holds non-empty text: with "A" stored, a tab value "B" replaces it. -/
theorem process_merge_overwrites_counterexample :
    sectionsC7.get SectionKind.key_insights = pys "A" ∧
    (merge_process sectionsC7 [(SectionKind.key_insights, pys "B")]).get
      SectionKind.key_insights ≠ pys "A" := by
  decide

/-- The direct-extraction pass only writes the sections it is given as
missing: any other section keeps its value. -/
theorem direct_extraction_not_mem (txt : PyStr) (k : SectionKind) :
    ∀ (ks : List SectionKind) (d : Sections), k ∉ ks →
      (direct_extraction txt ks d).get k = d.get k := by
  intro ks
  induction ks with
  | nil => intro d _; rfl
  | cons kv ks ih =>
    intro d hk
    have hkkv : k ≠ kv := fun he => hk (by rw [he]; exact List.mem_cons_self kv ks)
    have hks : k ∉ ks := fun hm => hk (List.mem_cons_of_mem kv hm)
    have hstep : direct_extraction txt (kv :: ks) d =
        direct_extraction txt ks
          (match direct_extract_section txt kv with
            | some t => d.set kv t
            | none => d) := rfl
    rw [hstep]
    cases hde : direct_extract_section txt kv with
    | some t =>
      simp only [hde]
      rw [ih (d.set kv t) hks, Sections.get_set, if_neg hkkv]
    | none =>
      simp only [hde]
      exact ih d hks

/-- C7, amended.  First-non-empty-wins holds for the passes of
`scrape_eightify_data`: its merge (lines 642-644) never overwrites a
non-empty section, and its direct-extraction pass only touches the
sections listed as missing (line 647), so non-empty sections survive it.
The merge of `process_next_url` instead stores any non-empty tab value
unconditionally. -/
theorem merge_precedence_amended :
    (∀ (d : Sections) (td : List (SectionKind × PyStr)) (k : SectionKind),
        d.get k ≠ [] → (merge_scrape d td).get k = d.get k) ∧
    (∀ (txt : PyStr) (d : Sections) (k : SectionKind),
        d.get k ≠ [] → (direct_extraction txt (missingOf d) d).get k = d.get k) ∧
    (∀ (d : Sections) (k : SectionKind) (v : PyStr),
        v ≠ [] → (merge_process d [(k, v)]).get k = v) := by
  refine ⟨?_, ?_, ?_⟩
  · intro d td k
    induction td generalizing d with
    | nil => intro _; rfl
    | cons kv td ih =>
      intro hk
      have hstep : merge_scrape d (kv :: td) =
          merge_scrape (if !kv.2.isEmpty && (d.get kv.1).isEmpty
            then d.set kv.1 kv.2 else d) td := rfl
      rw [hstep]
      by_cases hc : (!kv.2.isEmpty && (d.get kv.1).isEmpty) = true
      · rw [if_pos hc]
        have h2 : d.get kv.1 = [] :=
          List.isEmpty_iff.mp ((Bool.and_eq_true _ _).mp hc).2
        have hne : k ≠ kv.1 := fun he => hk (by rw [he]; exact h2)
        have hget : (d.set kv.1 kv.2).get k = d.get k := by
          rw [Sections.get_set, if_neg hne]
        rw [← hget]
        have hres := ih (d.set kv.1 kv.2) (by rw [hget]; exact hk)
        exact hres
      · rw [if_neg hc]
        exact ih d hk
  · intro txt d k hk
    apply direct_extraction_not_mem
    intro hm
    exact hk (List.isEmpty_iff.mp (List.mem_filter.mp hm).2)
  · intro d k v hv
    have hstep : merge_process d [(k, v)] =
        (if !v.isEmpty then d.set k v else d) := rfl
    rw [hstep, if_pos (by simp [hv]), Sections.get_set, if_pos rfl]

/-- Witness for C7 at concrete maps, discharging each hypothesis. -/
theorem merge_precedence_amended_witness :
    (merge_scrape sectionsC7 [(SectionKind.key_insights, pys "B")]).get
      SectionKind.key_insights = sectionsC7.get SectionKind.key_insights ∧
    (direct_extraction (pys "") (missingOf sectionsC7) sectionsC7).get
      SectionKind.key_insights = sectionsC7.get SectionKind.key_insights ∧
    (merge_process Sections.empty [(SectionKind.transcript, pys "x")]).get
      SectionKind.transcript = pys "x" :=
  ⟨merge_precedence_amended.1 sectionsC7 [(SectionKind.key_insights, pys "B")]
      SectionKind.key_insights (by decide),
   merge_precedence_amended.2.1 (pys "") sectionsC7 SectionKind.key_insights (by decide),
   merge_precedence_amended.2.2 Sections.empty SectionKind.transcript (pys "x") (by decide)⟩

/-- A concrete input URL with a non-zero playback-time parameter. -/
def urlWithOffset : PyStr := pys "https://www.youtube.com/watch?v=abc&t=30s"

/-- C8, counterexample.  `driver.get` receives the input URL verbatim
(lines 316 and 837): for an input whose time-offset parameter is `30s`,
the navigated URL still carries `t=30s`, not a parameter forced to 0. -/
theorem url_not_normalized_counterexample :
    nav_url_scrape urlWithOffset = urlWithOffset ∧
    nav_url_process urlWithOffset = urlWithOffset ∧
    queryParamT (nav_url_scrape urlWithOffset) = some (pys "30s") ∧
    queryParamT (nav_url_scrape urlWithOffset) ≠ some (pys "0") := by
  refine ⟨rfl, rfl, by decide, by decide⟩

/-- C8, amended.  No normalization is performed anywhere: both functions
navigate to the input URL unchanged, and the `video_url` field of every
result (line 737 and line 857, and the error dictionaries) carries the
raw input URL. -/
theorem nav_url_identity_amended :
    (∀ url : PyStr, nav_url_scrape url = url ∧ nav_url_process url = url) ∧
    (∀ (url : PyStr) (d : Sections),
      (scrape_finalize url d).video_url = url ∧
      (process_finalize url d).video_url = url) := by
  refine ⟨fun url => ⟨rfl, rfl⟩, fun url d => ⟨?_, rfl⟩⟩
  unfold scrape_finalize
  split
  · split
    · rfl
    · rfl
  · rfl

/-- C9, counterexample.  The successful exit of
`scrape_eightify_data`'s iframe block performs no switch back to the
top-level document: the function returns with the driver still inside the
extension iframe. -/
theorem scrape_success_keeps_iframe_counterexample :
    finalCtx (scrape_ctx_events [] ScrapeExit.success) = Ctx.frame ∧
    Ctx.frame ≠ Ctx.top := by
  decide

/-- C9, amended.  `process_next_url` restores the top-level context on
every exit of its iframe block (success, content error and iframe error,
lines 1124, 1127 and 1133), and `scrape_eightify_data` restores it on its
iframe-error exit (line 692); but the successful exit of
`scrape_eightify_data` leaves the driver inside the iframe. -/
theorem context_exit_amended :
    (∀ (recov : List Bool) (e : ProcessExit),
        finalCtx (process_ctx_events recov e) = Ctx.top) ∧
    (∀ recov : List Bool,
        finalCtx (scrape_ctx_events recov ScrapeExit.iframeError) = Ctx.top) ∧
    finalCtx (scrape_ctx_events [] ScrapeExit.success) = Ctx.frame := by
  refine ⟨fun recov e => ?_, fun recov => ?_, by decide⟩
  · cases e <;>
      simp [process_ctx_events, finalCtx, List.foldl_append, applyCtx]
  · simp [scrape_ctx_events, finalCtx, List.foldl_append, applyCtx]

/-- Helper: conclusion for an emitted plain entry. -/
theorem plain_entry_ok (l : PyStr) (hp : emitPlain (pyStrip l) = true) :
    pyStrip l ≠ [] ∧ pyStrip (pyStrip l) = pyStrip l ∧
    pyLower (pyStrip l) ≠ pys "transcript" := by
  have hp2 := (Bool.and_eq_true _ _).mp hp
  refine ⟨fun hc => ?_, pyStrip_idem l, fun hc => ?_⟩
  · simp [hc] at hp2
  · simp [hc] at hp2

/-- Every entry of the structured transcript with an empty timestamp has
non-empty, stripped text that is not case-insensitively "transcript"
(fuel-indexed induction on the line list). -/
theorem structure_lines_plain_aux :
    ∀ (n : Nat) (ls : List PyStr), ls.length ≤ n →
      ∀ (e : TranscriptEntry), e ∈ structure_transcript_lines ls →
        e.timestamp = [] →
        e.text ≠ [] ∧ pyStrip e.text = e.text ∧
          pyLower e.text ≠ pys "transcript" := by
  intro n
  induction n with
  | zero =>
    intro ls hlen e he _
    have hnil : ls = [] := List.length_eq_zero.mp (Nat.le_zero.mp hlen)
    subst hnil
    simp [structure_transcript_lines] at he
  | succ n ih =>
    intro ls hlen e he hets
    cases ls with
    | nil => simp [structure_transcript_lines] at he
    | cons l rest0 =>
      cases rest0 with
      | nil =>
        simp only [structure_transcript_lines] at he
        by_cases hp : emitPlain (pyStrip l) = true
        · rw [if_pos hp] at he
          have hee : e = ⟨[], pyStrip l⟩ := by simpa using he
          subst hee
          exact plain_entry_ok l hp
        · rw [if_neg hp] at he
          simp at he
      | cons next rest =>
        simp only [structure_transcript_lines] at he
        by_cases hts : is_timestamp (pyStrip l) = true
        · rw [if_pos hts] at he
          cases he with
          | head =>
            exfalso
            have hets2 : pyStrip l = [] := hets
            rw [hets2] at hts
            exact absurd hts (by decide)
          | tail _ hmem =>
            have hlen2 : rest.length ≤ n := by
              simp only [List.length_cons] at hlen
              omega
            exact ih rest hlen2 e hmem hets
        · rw [if_neg hts] at he
          rcases List.mem_append.mp he with hleft | hright
          · by_cases hp : emitPlain (pyStrip l) = true
            · rw [if_pos hp] at hleft
              have hee : e = ⟨[], pyStrip l⟩ := by simpa using hleft
              subst hee
              exact plain_entry_ok l hp
            · rw [if_neg hp] at hleft
              simp at hleft
          · have hlen2 : (next :: rest).length ≤ n := by
              simp only [List.length_cons] at hlen ⊢
              omega
            exact ih (next :: rest) hlen2 e hright hets

/-- C10.  In the structured transcript derived from any raw text, every
entry with an empty timestamp has non-empty text, carries no leading or
trailing whitespace (stripping it is the identity), and is never
case-insensitively equal to "transcript"; consequently only
timestamp-pair entries can carry empty text. -/
theorem structured_transcript_plain_entries :
    ∀ (raw : PyStr) (e : TranscriptEntry),
      e ∈ structure_transcript raw → e.timestamp = [] →
      e.text ≠ [] ∧ pyStrip e.text = e.text ∧ pyLower e.text ≠ pys "transcript" :=
  fun raw =>
    structure_lines_plain_aux (pySplitChar '\n' raw).length
      (pySplitChar '\n' raw) (Nat.le_refl _)

/-- Witness for C10 at a concrete raw transcript. -/
theorem structured_transcript_plain_entries_witness :
    pys "Hello" ≠ [] ∧ pyStrip (pys "Hello") = pys "Hello" ∧
    pyLower (pys "Hello") ≠ pys "transcript" :=
  structured_transcript_plain_entries (pys "Hello") ⟨[], pys "Hello"⟩
    (by decide) (by decide)
